import Mathlib

/-!
Verification of the metavoxels Bitstream dictionary-coding layer
(src/libraries/metavoxels/src/Bitstream.h) and the gpu Framebuffer
render-buffer bookkeeping (src/libraries/gpu/src/gpu/Framebuffer.cpp),
as a shallow embedding in Lean 4.

QHash is embedded as an association list with lookup-default-0 semantics
(`QHash<K,int>::value` returns a default-constructed 0 for absent keys);
machine ints hold only small non-negative counters here, so they are
embedded as `Nat`.
-/

namespace Hifi

/-! ### Association lists standing in for QHash -/

/-- Lookup in an association list: first binding of the key, mirroring
QHash\x2eind behaviour for the single-binding hashes used here. -/
def qfind {K V : Type} [DecidableEq K] : List (K × V) → K → Option V
  | [], _ => none
  | (k, x) :: rest, key => if k = key then some x else qfind rest key

/-- QHash<K,int>::value: the stored value, or a default-constructed 0 when
the key is absent. -/
def qvalue {K : Type} [DecidableEq K] (l : List (K × Nat)) (key : K) : Nat :=
  (qfind l key).getD 0

/-- Store a binding, replacing an existing binding of the same key
(QHash insert / operator[] assignment). -/
def qinsert {K V : Type} [DecidableEq K] : List (K × V) → K → V → List (K × V)
  | [], key, x => [(key, x)]
  | (k, y) :: rest, key, x =>
      if k = key then (key, x) :: rest else (k, y) :: qinsert rest key x

theorem qfind_qinsert_same {K V : Type} [DecidableEq K]
    (l : List (K × V)) (key : K) (x : V) : qfind (qinsert l key x) key = some x := by
  induction l with
  | nil => simp [qinsert, qfind]
  | cons p rest ih =>
      obtain ⟨k, y⟩ := p
      by_cases h : k = key
      · simp [qinsert, h, qfind]
      · simp [qinsert, h, qfind, ih]

theorem qfind_qinsert_other {K V : Type} [DecidableEq K]
    (l : List (K × V)) (key key' : K) (x : V) (h : key ≠ key') :
    qfind (qinsert l key x) key' = qfind l key' := by
  induction l with
  | nil => simp [qinsert, qfind, h]
  | cons p rest ih =>
      obtain ⟨k, y⟩ := p
      by_cases hk : k = key
      · subst hk
        simp [qinsert, qfind, h, ih]
      · by_cases hk' : k = key'
        · subst hk'
          simp [qinsert, hk, qfind]
        · simp [qinsert, hk, qfind, hk', ih]

theorem qvalue_qinsert_same {K : Type} [DecidableEq K]
    (l : List (K × Nat)) (key : K) (x : Nat) : qvalue (qinsert l key x) key = x := by
  simp [qvalue, qfind_qinsert_same]

theorem qvalue_qinsert_other {K : Type} [DecidableEq K]
    (l : List (K × Nat)) (key key' : K) (x : Nat) (h : key ≠ key') :
    qvalue (qinsert l key x) key' = qvalue l key' := by
  simp [qvalue, qfind_qinsert_other l key key' x h]

/-! ### The ID coder (IDStreamer)

Modelled from the spec: the bodies of IDStreamer::operator<< and
IDStreamer::operator>> live in Bitstream.cpp, which is not under src/
(only the declaration in Bitstream.h is).  Per spec section 4.2 the coder
keeps `highestAssignedId` (initial sentinel meaning "none assigned"),
encodes and decodes every id in exactly `ceil(log2(highestAssignedId + 2))`
bits (0 bits while nothing is assigned), and advances `highestAssignedId`
exactly when the id equals `highestAssignedId + 1`.  The state is embedded
as the count of assigned ids, `count = highestAssignedId + 1`, so that the
sentinel is `count = 0` and the width is `ceil(log2(count + 1))`. -/

/-- Bit width the ID coder uses in a state with `count` assigned ids:
ceil(log2(count + 1)), i.e. ceil(log2(highestAssignedId + 2)). -/
def idWidth (count : Nat) : Nat := Nat.clog 2 (count + 1)

/-- Advance rule of the ID coder: the count grows exactly when the id is
the unique next value `highestAssignedId + 1 = count`. -/
def idAdvance (count : Nat) (i : Nat) : Nat := if i = count then count + 1 else count

/-- IDStreamer::operator<< — writing id `i` in state `count` consumes
`idWidth count` bits and moves to state `idAdvance count i`. -/
def idWrite (count : Nat) (i : Nat) : Nat × Nat := (idWidth count, idAdvance count i)

/-- IDStreamer::operator>> — reading (which decodes id `i`) consumes the
identically recomputed `idWidth count` bits and performs the same advance. -/
def idRead (count : Nat) (i : Nat) : Nat × Nat := (idWidth count, idAdvance count i)

/-- Bit widths consumed by a sequence of id writes starting in state `count`. -/
def idWriteWidths : Nat → List Nat → List Nat
  | _, [] => []
  | count, i :: is => idWidth count :: idWriteWidths (idAdvance count i) is

/-! ### The repeated-value dictionary (RepeatedValueStreamer<T>)

The write side and the read side are the same C++ class; the embedding
keeps all its fields.  The wire is embedded as a list of tokens: an id
emitted through the embedded IDStreamer, or a value's full encoding
(`_stream << value` / `_stream >> value`), which by assumption round-trips
faithfully. -/

/-- One item on the wire: an id emitted via the ID coder, or the full
encoding of a value. -/
inductive WireItem (T : Type) where
  | id : Nat → WireItem T
  | val : T → WireItem T
deriving DecidableEq

/-- State of a RepeatedValueStreamer<T>: the four QHash fields, the two
counters, and the embedded IDStreamer state (spec-modelled as a count). -/
structure RepeatedValueStreamer (T : Type) where
  lastPersistentID : Nat
  lastTransientOffset : Nat
  persistentIDs : List (T × Nat)
  transientOffsets : List (T × Nat)
  values : List (Nat × T)
  idCount : Nat
deriving DecidableEq

/-- A freshly constructed RepeatedValueStreamer: both counters 0, all
hashes empty, fresh embedded IDStreamer. -/
def rvFresh (T : Type) : RepeatedValueStreamer T :=
  { lastPersistentID := 0, lastTransientOffset := 0, persistentIDs := [],
    transientOffsets := [], values := [], idCount := 0 }

variable {T : Type} [DecidableEq T]

/-- RepeatedValueStreamer<T>::operator<< — returns the new state and the
tokens emitted.  `_persistentIDs.value(value)` equal to 0 means no
persistent ID; then `_transientOffsets[value]` equal to 0 means unseen this
session, in which case the next transient offset is assigned, the combined
id `_lastPersistentID + offset` is emitted through the ID coder and the
full value follows; otherwise only the id is emitted. -/
def rvWrite (s : RepeatedValueStreamer T) (value : T) :
    RepeatedValueStreamer T × List (WireItem T) :=
  let pid := qvalue s.persistentIDs value
  if pid = 0 then
    let offset := qvalue s.transientOffsets value
    if offset = 0 then
      let newOffset := s.lastTransientOffset + 1
      ({ s with lastTransientOffset := newOffset,
                transientOffsets := qinsert s.transientOffsets value newOffset,
                idCount := idAdvance s.idCount (s.lastPersistentID + newOffset) },
       [WireItem.id (s.lastPersistentID + newOffset), WireItem.val value])
    else
      ({ s with idCount := idAdvance s.idCount (s.lastPersistentID + offset) },
       [WireItem.id (s.lastPersistentID + offset)])
  else
    ({ s with idCount := idAdvance s.idCount pid }, [WireItem.id pid])

/-- RepeatedValueStreamer<T>::operator>> — reads an id through the ID
coder; if `_values` has no entry for it, reads the full value next on the
wire and caches it, otherwise returns the cached value.  A wire on which
the expected token is missing is a decode failure (`none`). -/
def rvRead (s : RepeatedValueStreamer T) :
    List (WireItem T) → Option (RepeatedValueStreamer T × T × List (WireItem T))
  | WireItem.id n :: rest =>
      let s1 := { s with idCount := idAdvance s.idCount n }
      match qfind s1.values n with
      | some v => some (s1, v, rest)
      | none =>
          match rest with
          | WireItem.val v :: rest2 =>
              some ({ s1 with values := qinsert s1.values n v }, v, rest2)
          | _ => none
  | _ => none

/-- RepeatedValueStreamer<T>::getAndResetTransientOffsets — swaps the
transient-offset hash out and zeroes the transient counter, touching
nothing else. -/
def getAndResetTransientOffsets (s : RepeatedValueStreamer T) :
    List (T × Nat) × RepeatedValueStreamer T :=
  (s.transientOffsets, { s with transientOffsets := [], lastTransientOffset := 0 })

/-- Writing a whole sequence of values; returns the final state and the
concatenated wire. -/
def rvWriteList (s : RepeatedValueStreamer T) :
    List T → RepeatedValueStreamer T × List (WireItem T)
  | [] => (s, [])
  | v :: vs =>
      let step := rvWrite s v
      let rest := rvWriteList step.1 vs
      (rest.1, step.2 ++ rest.2)

/-- Reading `n` values off the wire; returns the final state, the values
read, and the remaining wire. -/
def rvReadList (s : RepeatedValueStreamer T) (wire : List (WireItem T)) :
    Nat → Option (RepeatedValueStreamer T × List T × List (WireItem T))
  | 0 => some (s, [], wire)
  | n + 1 =>
      match rvRead s wire with
      | none => none
      | some (s1, v, wire1) =>
          match rvReadList s1 wire1 n with
          | none => none
          | some (s2, vs, wire2) => some (s2, v :: vs, wire2)

/-- Bits a single rvWrite emits: the embedded ID coder's current width for
the one id token, plus the value's full encoding size for a value token,
`valueBits` giving the (type-specific) encoded size of a value. -/
def rvWriteBits (valueBits : T → Nat) (s : RepeatedValueStreamer T) (value : T) : Nat :=
  idWidth s.idCount +
    ((rvWrite s value).2.foldl
      (fun acc t => acc + (match t with | WireItem.id _ => 0 | WireItem.val v => valueBits v)) 0)

/-! ### Small ceil-log2 evaluations -/

theorem clog2_one : Nat.clog 2 1 = 0 := Nat.clog_one_right 2

theorem clog2_two : Nat.clog 2 2 = 1 := by
  rw [Nat.clog_of_two_le (by norm_num) (by norm_num)]
  norm_num [clog2_one]

theorem clog2_three : Nat.clog 2 3 = 2 := by
  rw [Nat.clog_of_two_le (by norm_num) (by norm_num)]
  norm_num [clog2_two]

theorem clog2_four : Nat.clog 2 4 = 2 := by
  rw [Nat.clog_of_two_le (by norm_num) (by norm_num)]
  norm_num [clog2_two]

theorem clog2_five : Nat.clog 2 5 = 3 := by
  rw [Nat.clog_of_two_le (by norm_num) (by norm_num)]
  norm_num [clog2_three]

/-! ### Claims about the ID coder and the repeated-value dictionary -/

/-- Claim C2: once the highest assigned ID has reached `k` (so the coder
holds `k + 1` assigned ids), every subsequent ID write or read uses exactly
ceil(log2(k + 2)) bits, and writing ids 0,1,2,3,4 in sequence, each
first-seen, consumes widths 0,1,2,2,3. -/
theorem idCoder_minimal_width :
    (∀ k i : Nat, (idWrite (k + 1) i).1 = Nat.clog 2 (k + 2) ∧
      (idRead (k + 1) i).1 = Nat.clog 2 (k + 2)) ∧
    idWriteWidths 0 [0, 1, 2, 3, 4] = [0, 1, 2, 2, 3] := by
  constructor
  · intro k i
    exact ⟨rfl, rfl⟩
  · simp [idWriteWidths, idAdvance, idWidth, clog2_one, clog2_two, clog2_three,
      clog2_four, clog2_five]

/-- Claim C4: a value with a (nonzero) entry in the persistent-ID table is
written as that persistent ID alone — no value token — and the write leaves
the transient-offset table and the transient counter unchanged. -/
theorem rvWrite_persistent_precedence (s : RepeatedValueStreamer T) (v : T)
    (hp : qvalue s.persistentIDs v ≠ 0) :
    rvWrite s v = ({ s with idCount := idAdvance s.idCount (qvalue s.persistentIDs v) },
                   [WireItem.id (qvalue s.persistentIDs v)]) ∧
    (rvWrite s v).1.transientOffsets = s.transientOffsets ∧
    (rvWrite s v).1.lastTransientOffset = s.lastTransientOffset := by
  refine ⟨?_, ?_, ?_⟩ <;> simp [rvWrite, hp]

/-- Witness for C4 at a concrete state: value 7 carries persistent ID 2. -/
theorem rvWrite_persistent_precedence_witness :
    rvWrite { lastPersistentID := 3, lastTransientOffset := 1,
              persistentIDs := [(7, 2)], transientOffsets := [(9, 1)],
              values := [], idCount := 0 } 7 =
      ({ lastPersistentID := 3, lastTransientOffset := 1,
         persistentIDs := [(7, 2)], transientOffsets := [(9, 1)],
         values := [], idCount := idAdvance 0 2 }, [WireItem.id 2]) ∧
    (rvWrite { lastPersistentID := 3, lastTransientOffset := 1,
               persistentIDs := [(7, 2)], transientOffsets := [(9, 1)],
               values := [], idCount := 0 } 7).1.transientOffsets = [(9, 1)] ∧
    (rvWrite { lastPersistentID := 3, lastTransientOffset := 1,
               persistentIDs := [(7, 2)], transientOffsets := [(9, 1)],
               values := [], idCount := 0 } 7).1.lastTransientOffset = 1 := by
  have h := rvWrite_persistent_precedence (T := Nat)
    { lastPersistentID := 3, lastTransientOffset := 1,
      persistentIDs := [(7, 2)], transientOffsets := [(9, 1)],
      values := [], idCount := 0 } 7 (by decide)
  exact h

/-- Claim C5: from a fresh streamer, writing A (new), B (new), A (repeat)
and harvesting yields exactly the mapping A to 1, B to 2; a second harvest
before further writes yields the empty mapping. -/
theorem transient_harvest (A B : T) (hAB : A ≠ B) :
    (getAndResetTransientOffsets (rvWriteList (rvFresh T) [A, B, A]).1).1 = [(A, 1), (B, 2)] ∧
    (getAndResetTransientOffsets
      (getAndResetTransientOffsets (rvWriteList (rvFresh T) [A, B, A]).1).2).1 = [] := by
  simp [rvWriteList, rvWrite, rvFresh, qvalue, qfind, qinsert, idAdvance,
    getAndResetTransientOffsets, hAB]

/-- Witness for C5 with the distinct concrete values 10 and 20. -/
theorem transient_harvest_witness :
    (getAndResetTransientOffsets (rvWriteList (rvFresh Nat) [10, 20, 10]).1).1
      = [(10, 1), (20, 2)] ∧
    (getAndResetTransientOffsets
      (getAndResetTransientOffsets (rvWriteList (rvFresh Nat) [10, 20, 10]).1).2).1 = [] :=
  transient_harvest 10 20 (by decide)

omit [DecidableEq T] in
/-- Claim C6: getAndResetTransientOffsets returns the transient-offset
table, empties it and zeroes the transient counter, and leaves the
persistent table, the last-persistent-ID counter, the read cache and the
embedded ID-coder state untouched. -/
theorem getAndReset_frame (s : RepeatedValueStreamer T) :
    (getAndResetTransientOffsets s).1 = s.transientOffsets ∧
    (getAndResetTransientOffsets s).2.transientOffsets = [] ∧
    (getAndResetTransientOffsets s).2.lastTransientOffset = 0 ∧
    (getAndResetTransientOffsets s).2.persistentIDs = s.persistentIDs ∧
    (getAndResetTransientOffsets s).2.lastPersistentID = s.lastPersistentID ∧
    (getAndResetTransientOffsets s).2.values = s.values ∧
    (getAndResetTransientOffsets s).2.idCount = s.idCount := by
  simp [getAndResetTransientOffsets]

/-- Every id the repeated-value streamer writes is positive (a persistent
id passes the nonzero sentinel test, a combined transient id is at least
1), so the spec-modelled embedded coder, which only advances on id 0 from
its fresh state, stays fresh: `idCount = 0` holds in every streamer state
reachable by writes from a fresh one. -/
theorem rvWrite_idCount_zero (s : RepeatedValueStreamer T) (v : T)
    (h : s.idCount = 0) : ((rvWrite s v).1).idCount = 0 := by
  by_cases hp : qvalue s.persistentIDs v = 0
  · by_cases ht : qvalue s.transientOffsets v = 0
    · simp [rvWrite, hp, ht, idAdvance, h]
    · simp [rvWrite, hp, ht, idAdvance, h, Nat.pos_of_ne_zero]
  · simp [rvWrite, hp, idAdvance, h]

/-- Claim C3: writing a value with no persistent ID three times from a
state where it is unseen this session (and whose embedded ID coder is in
the state every streamer reachable by writes has) emits the combined id
lastPersistentID + offset followed by the full value exactly once, on the
first occurrence; the second and third writes emit only the id, and their
emitted bit counts are equal to each other and strictly below the first
occurrence's. -/
theorem rvWrite_dedup (valueBits : T → Nat) (s : RepeatedValueStreamer T) (v : T)
    (hc : s.idCount = 0) (hp : qvalue s.persistentIDs v = 0)
    (ht : qvalue s.transientOffsets v = 0) (hv : 0 < valueBits v) :
    (rvWrite s v).2 = [WireItem.id (s.lastPersistentID + (s.lastTransientOffset + 1)),
                       WireItem.val v] ∧
    (rvWrite (rvWrite s v).1 v).2 =
      [WireItem.id (s.lastPersistentID + (s.lastTransientOffset + 1))] ∧
    (rvWrite (rvWrite (rvWrite s v).1 v).1 v).2 = (rvWrite (rvWrite s v).1 v).2 ∧
    rvWriteBits valueBits (rvWrite (rvWrite s v).1 v).1 v
      = rvWriteBits valueBits (rvWrite s v).1 v ∧
    rvWriteBits valueBits (rvWrite s v).1 v < rvWriteBits valueBits s v := by
  have hA : idAdvance 0 (s.lastPersistentID + (s.lastTransientOffset + 1)) = 0 := by
    rw [idAdvance, if_neg (by omega)]
  have e1 : rvWrite s v =
      ({ s with lastTransientOffset := s.lastTransientOffset + 1,
                transientOffsets := qinsert s.transientOffsets v (s.lastTransientOffset + 1),
                idCount := 0 },
       [WireItem.id (s.lastPersistentID + (s.lastTransientOffset + 1)), WireItem.val v]) := by
    simp [rvWrite, hp, ht, hc, hA]
  have e2 : rvWrite (rvWrite s v).1 v =
      ((rvWrite s v).1, [WireItem.id (s.lastPersistentID + (s.lastTransientOffset + 1))]) := by
    rw [e1]
    simp [rvWrite, hp, qvalue_qinsert_same, hA]
  have e21 : (rvWrite (rvWrite s v).1 v).1 = (rvWrite s v).1 := by rw [e2]
  have b1 : rvWriteBits valueBits s v = valueBits v := by
    rw [rvWriteBits, e1]
    simp [idWidth, hc, clog2_one]
  have b2 : rvWriteBits valueBits (rvWrite s v).1 v = 0 := by
    rw [rvWriteBits, e2, e1]
    simp [idWidth, clog2_one]
  refine ⟨by rw [e1], by rw [e2], by rw [e21], by rw [e21], ?_⟩
  rw [b2, b1]
  exact hv

/-- Witness for C3: value 3 written three times through a fresh streamer,
its full encoding taken to be 8 bits. -/
theorem rvWrite_dedup_witness :
    (rvWrite (rvFresh Nat) 3).2 = [WireItem.id (0 + (0 + 1)), WireItem.val 3] ∧
    (rvWrite (rvWrite (rvFresh Nat) 3).1 3).2 = [WireItem.id (0 + (0 + 1))] ∧
    (rvWrite (rvWrite (rvWrite (rvFresh Nat) 3).1 3).1 3).2
      = (rvWrite (rvWrite (rvFresh Nat) 3).1 3).2 ∧
    rvWriteBits (fun _ => 8) (rvWrite (rvWrite (rvFresh Nat) 3).1 3).1 3
      = rvWriteBits (fun _ => 8) (rvWrite (rvFresh Nat) 3).1 3 ∧
    rvWriteBits (fun _ => 8) (rvWrite (rvFresh Nat) 3).1 3
      < rvWriteBits (fun _ => 8) (rvFresh Nat) 3 :=
  rvWrite_dedup (fun _ => 8) (rvFresh Nat) 3 rfl (by decide) (by decide) (by decide)

/-- Claim C8: a persistent-table lookup of 0 — whether the value is absent
or explicitly registered under ID 0 — sends the value down the transient
path: it is assigned transient offset lastTransientOffset + 1 (at least 1),
the combined id lastPersistentID + offset (at least lastPersistentID + 1,
never 0) is emitted, and the full value follows. -/
theorem rvWrite_zero_sentinel (s : RepeatedValueStreamer T) (v : T)
    (hp : qvalue s.persistentIDs v = 0) (ht : qvalue s.transientOffsets v = 0) :
    (rvWrite s v).2 = [WireItem.id (s.lastPersistentID + (s.lastTransientOffset + 1)),
                       WireItem.val v] ∧
    qvalue (rvWrite s v).1.transientOffsets v = s.lastTransientOffset + 1 ∧
    1 ≤ s.lastTransientOffset + 1 ∧
    s.lastPersistentID + 1 ≤ s.lastPersistentID + (s.lastTransientOffset + 1) := by
  refine ⟨?_, ?_, ?_, ?_⟩
  · simp [rvWrite, hp, ht]
  · simp [rvWrite, hp, ht, qvalue_qinsert_same]
  · exact Nat.le_refl 1 |>.trans (Nat.le_add_left 1 s.lastTransientOffset)
  · exact Nat.add_le_add_left (Nat.le_add_left 1 s.lastTransientOffset) s.lastPersistentID

/-- Witness for C8: value 42 is explicitly registered with persistent ID 0
and is nevertheless streamed as a transient value with combined id 6. -/
theorem rvWrite_zero_sentinel_witness :
    (rvWrite { lastPersistentID := 5, lastTransientOffset := 0,
               persistentIDs := [(42, 0)], transientOffsets := [],
               values := [], idCount := 0 } 42).2 =
      [WireItem.id (5 + (0 + 1)), WireItem.val 42] ∧
    qvalue (rvWrite { lastPersistentID := 5, lastTransientOffset := 0,
                      persistentIDs := [(42, 0)], transientOffsets := [],
                      values := [], idCount := 0 } 42).1.transientOffsets 42 = 0 + 1 ∧
    1 ≤ 0 + 1 ∧ 5 + 1 ≤ 5 + (0 + 1) := by
  have h := rvWrite_zero_sentinel (T := Nat)
    { lastPersistentID := 5, lastTransientOffset := 0,
      persistentIDs := [(42, 0)], transientOffsets := [],
      values := [], idCount := 0 } 42 (by decide) (by decide)
  exact h

/-! ### Round-trip of a fresh write/read streamer pair (claim C1) -/

/-- Lock-step relation between a write-side streamer in a fresh session
(no persistent IDs) and a read-side streamer: every value holding a
transient offset is cached by the reader under the corresponding combined
id, every reader cache entry comes from such an offset, cached ids are
positive, and all offsets are bounded by the transient counter. -/
def Lockstep (w r : RepeatedValueStreamer T) : Prop :=
  w.lastPersistentID = 0 ∧ w.persistentIDs = [] ∧
  (∀ v : T, 0 < qvalue w.transientOffsets v →
      qfind r.values (qvalue w.transientOffsets v) = some v) ∧
  (∀ (n : Nat) (v : T), qfind r.values n = some v →
      0 < n ∧ qvalue w.transientOffsets v = n) ∧
  (∀ v : T, qvalue w.transientOffsets v ≤ w.lastTransientOffset)

theorem lockstep_fresh : Lockstep (rvFresh T) (rvFresh T) := by
  refine ⟨rfl, rfl, ?_, ?_, ?_⟩
  · intro v hv
    simp [rvFresh, qvalue, qfind] at hv
  · intro n v hv
    simp [rvFresh, qfind] at hv
  · intro v
    simp [rvFresh, qvalue, qfind]

theorem lockstep_step (w r : RepeatedValueStreamer T) (h : Lockstep w r) (v : T)
    (rest : List (WireItem T)) :
    ∃ r', rvRead r ((rvWrite w v).2 ++ rest) = some (r', v, rest) ∧
      Lockstep (rvWrite w v).1 r' := by
  obtain ⟨hP, hPIDs, hfwd, hbwd, hbound⟩ := h
  have hpid : qvalue w.persistentIDs v = 0 := by rw [hPIDs]; rfl
  by_cases h0 : qvalue w.transientOffsets v = 0
  · -- first occurrence: id then full value on the wire, reader caches it
    have e1 : rvWrite w v =
        ({ w with lastTransientOffset := w.lastTransientOffset + 1,
                  transientOffsets := qinsert w.transientOffsets v (w.lastTransientOffset + 1),
                  idCount := idAdvance w.idCount
                    (w.lastPersistentID + (w.lastTransientOffset + 1)) },
         [WireItem.id (w.lastPersistentID + (w.lastTransientOffset + 1)),
          WireItem.val v]) := by
      simp [rvWrite, hpid, h0]
    have hn : w.lastPersistentID + (w.lastTransientOffset + 1) = w.lastTransientOffset + 1 := by
      rw [hP, Nat.zero_add]
    have hnone : qfind r.values (w.lastTransientOffset + 1) = none := by
      cases hfind : qfind r.values (w.lastTransientOffset + 1) with
      | none => rfl
      | some v' =>
          have hb := hbwd _ _ hfind
          have := hbound v'
          omega
    refine ⟨{ r with
                idCount := idAdvance r.idCount (w.lastTransientOffset + 1)
                values := qinsert r.values (w.lastTransientOffset + 1) v }, ?_, ?_⟩
    · rw [e1, hn]
      simp [rvRead, hnone]
    · rw [e1]
      refine ⟨hP, hPIDs, ?_, ?_, ?_⟩
      · dsimp only
        intro v'' hv''
        by_cases hvv : v = v''
        · subst hvv
          simp only [qvalue_qinsert_same]
          simp [qfind_qinsert_same]
        · rw [qvalue_qinsert_other _ _ _ _ hvv] at hv'' ⊢
          have hne : w.lastTransientOffset + 1 ≠ qvalue w.transientOffsets v'' := by
            have := hbound v''
            omega
          rw [qfind_qinsert_other _ _ _ _ hne]
          exact hfwd v'' hv''
      · dsimp only
        intro n v'' hfind
        by_cases hnn : w.lastTransientOffset + 1 = n
        · subst hnn
          rw [qfind_qinsert_same] at hfind
          obtain rfl : v = v'' := by injection hfind
          exact ⟨Nat.succ_pos _, qvalue_qinsert_same _ _ _⟩
        · rw [qfind_qinsert_other _ _ _ _ hnn] at hfind
          obtain ⟨hpos, heq⟩ := hbwd _ _ hfind
          have hvv : v ≠ v'' := by
            intro hv
            rw [← hv, h0] at heq
            omega
          exact ⟨hpos, by rw [qvalue_qinsert_other _ _ _ _ hvv]; exact heq⟩
      · dsimp only
        intro v''
        by_cases hvv : v = v''
        · subst hvv
          simp [qvalue_qinsert_same]
        · rw [qvalue_qinsert_other _ _ _ _ hvv]
          have := hbound v''
          omega
  · -- repeat occurrence: only the id travels, the reader answers from cache
    have hoff : 0 < qvalue w.transientOffsets v := Nat.pos_of_ne_zero h0
    have e1 : rvWrite w v =
        ({ w with
             idCount := idAdvance w.idCount (w.lastPersistentID + qvalue w.transientOffsets v) },
         [WireItem.id (w.lastPersistentID + qvalue w.transientOffsets v)]) := by
      simp [rvWrite, hpid, h0]
    have hn : w.lastPersistentID + qvalue w.transientOffsets v
        = qvalue w.transientOffsets v := by
      rw [hP, Nat.zero_add]
    refine ⟨{ r with idCount := idAdvance r.idCount (qvalue w.transientOffsets v) }, ?_, ?_⟩
    · rw [e1, hn]
      simp [rvRead, hfwd v hoff]
    · rw [e1]
      dsimp only
      exact ⟨hP, hPIDs, hfwd, hbwd, hbound⟩

theorem lockstep_list (vs : List T) : ∀ (w r : RepeatedValueStreamer T), Lockstep w r →
    ∀ tail, ∃ r', rvReadList r ((rvWriteList w vs).2 ++ tail) vs.length
      = some (r', vs, tail) ∧ Lockstep (rvWriteList w vs).1 r' := by
  induction vs with
  | nil =>
      intro w r h tail
      exact ⟨r, by simp [rvWriteList, rvReadList], h⟩
  | cons v vs ih =>
      intro w r h tail
      obtain ⟨r1, hread, hls⟩ :=
        lockstep_step w r h v ((rvWriteList (rvWrite w v).1 vs).2 ++ tail)
      obtain ⟨r', hrest, hls'⟩ := ih (rvWrite w v).1 r1 hls tail
      refine ⟨r', ?_, ?_⟩
      · show rvReadList r ((rvWriteList w (v :: vs)).2 ++ tail) (vs.length + 1)
          = some (r', v :: vs, tail)
        rw [rvWriteList]
        simp only [List.append_assoc]
        rw [rvReadList, hread]
        dsimp only
        rw [hrest]
      · rw [rvWriteList]
        exact hls'

/-- Claim C1: round-trip lock-step of the repeated-value dictionary — any
sequence of values written through a fresh write-side streamer, read back
with a fresh read-side streamer (the ID coder and the value encodings
assumed to round-trip faithfully, which the wire-token embedding encodes),
yields exactly the same sequence, the whole wire is consumed, and writer
and reader dictionaries end in lock-step: each value's transient offset is
exactly the id the reader first saw it under and cached it by. -/
theorem rvStreamer_roundtrip (vs : List T) :
    ∃ r', rvReadList (rvFresh T) (rvWriteList (rvFresh T) vs).2 vs.length
        = some (r', vs, []) ∧ Lockstep (rvWriteList (rvFresh T) vs).1 r' := by
  have h := lockstep_list vs (rvFresh T) (rvFresh T) lockstep_fresh []
  simpa using h

/-- Witness for C1 at a concrete repeating sequence. -/
theorem rvStreamer_roundtrip_witness :
    ∃ r', rvReadList (rvFresh Nat) (rvWriteList (rvFresh Nat) [5, 6, 5, 7, 6]).2 5
        = some (r', [5, 6, 5, 7, 6], []) ∧
      Lockstep (rvWriteList (rvFresh Nat) [5, 6, 5, 7, 6]).1 r' :=
  rvStreamer_roundtrip [5, 6, 5, 7, 6]

/-! ### The bit channel (Bitstream::write / Bitstream::read) — claim C7

Modelled from the spec: the bodies of Bitstream::write, Bitstream::read and
Bitstream::flush live in Bitstream.cpp, which is not under src/.  The
header declares a single pending byte `_byte` and a single bit cursor
`_position` shared by reads and writes, no mode flag, and no error-return
surface (both operators return the stream reference); spec sections 3 and
4.1 say a write packs bits into the pending partial byte, emitting each
completed byte to the underlying stream, and a read consumes one byte from
the underlying stream on demand and extracts bits at the cursor.  The
channel is embedded at single-bit granularity; `output` holds the bytes
flushed so far and `input` the bytes the underlying read-side stream still
holds; transport exhaustion is the one fatal error (`none`). -/

/-- Shared state of the bit channel: the pending byte, the bit cursor, and
the two sides of the underlying transport. -/
structure BitChannel where
  byte : Nat
  position : Nat
  output : List Nat
  input : List Nat
deriving DecidableEq

/-- A fresh channel over an underlying byte source. -/
def mkChannel (input : List Nat) : BitChannel :=
  { byte := 0, position := 0, output := [], input := input }

/-- Write one bit: set it at the cursor in the pending byte; the eighth bit
completes the byte, which is flushed to the underlying stream. -/
def writeBit (s : BitChannel) (b : Bool) : BitChannel :=
  let byte2 := s.byte ||| (if b then 2 ^ s.position else 0)
  if s.position + 1 = 8 then
    { s with byte := 0, position := 0, output := s.output ++ [byte2] }
  else
    { s with byte := byte2, position := s.position + 1 }

/-- Read one bit: with the cursor at 0 fetch the next byte from the
underlying stream (exhaustion is the fatal decode error), otherwise return
the bit of the pending byte at the cursor, wrapping the cursor modulo 8. -/
def readBit (s : BitChannel) : Option (Bool × BitChannel) :=
  if s.position = 0 then
    match s.input with
    | [] => none
    | x :: rest =>
        some (x.testBit 0, { s with byte := x, position := 1, input := rest })
  else
    some (s.byte.testBit s.position, { s with position := (s.position + 1) % 8 })

/-- Claim C7, counterexample: issuing a write and then a read on one
channel, with no reset between them, is neither rejected nor an error —
the mixed read succeeds (`some`), consumes nothing from the underlying
stream, and returns bit 1 of the half-written pending byte (false), while
the same read on a pristine channel over the same underlying byte 255
returns that stream's true first bit (true): silently corrupted output. -/
theorem mixed_mode_not_rejected :
    (readBit (writeBit (mkChannel [255]) true)).map Prod.fst = some false ∧
    (readBit (writeBit (mkChannel [255]) true)).map (fun p => p.2.input) = some [255] ∧
    (readBit (mkChannel [255])).map Prod.fst = some true := by
  decide

/-- Claim C7 as amended: mode mixing is not detected — whenever the shared
cursor is off 0 (as after a partial write), a read always succeeds with no
error, consumes nothing from the underlying transport, and returns a bit
of the pending write byte; exclusivity is only a documented caller
contract. -/
theorem mixed_mode_silent (s : BitChannel) (h : s.position ≠ 0) :
    readBit s = some (s.byte.testBit s.position,
      { s with position := (s.position + 1) % 8 }) := by
  simp [readBit, h]

/-- Witness for the amended C7 at the channel state a single written bit
leaves behind. -/
theorem mixed_mode_silent_witness :
    (1 : Nat).testBit 1 = false ∧
    readBit { byte := 1, position := 1, output := [], input := [] } =
      some ((1 : Nat).testBit 1,
        { byte := 1, position := (1 + 1) % 8, output := [], input := [] }) :=
  ⟨by decide, mixed_mode_silent { byte := 1, position := 1, output := [], input := [] }
    (by decide)⟩

/-! ### The gpu Framebuffer (Framebuffer.cpp) — claims C9 and C10

Framebuffer.cpp is under src/; its header (field declarations, the
constant MAX_NUM_RENDER_BUFFERS and getMaxNumRenderBuffers) is not, so the
model is parametric in that constant, the `_buffersMask` uint32 is embedded
as the Finset of its set bits, and default-constructed fields are the zero
values the cpp relies on.  TexturePointer is `Option Texture`; only the
Texture observations Framebuffer.cpp makes (type, width, height, sample
count) are modelled. -/

namespace gpu

/-- Texture target types; validateTargetCompatibility only distinguishes
TEX_1D from the rest. -/
inductive TexType where
  | tex1D
  | tex2D
  | tex3D
deriving DecidableEq

/-- The observations of a gpu::Texture that Framebuffer.cpp makes. -/
structure Texture where
  ty : TexType
  width : Nat
  height : Nat
  numSamples : Nat
deriving DecidableEq

/-- The observations of a gpu::Swapchain that Framebuffer.cpp makes. -/
structure SwapchainInfo where
  width : Nat
  height : Nat
  numSamples : Nat
  frameCount : Nat
deriving DecidableEq

/-- State of a gpu::Framebuffer: the two per-slot vectors, the
depth-stencil attachment, the cached size, the buffers mask (as its set of
set bits) and the optional swapchain. -/
structure Framebuffer where
  renderBuffers : List (Option Texture)
  renderBuffersSubresource : List Nat
  depthStencilBuffer : Option Texture
  depthStencilBufferSubresource : Nat
  width : Nat
  height : Nat
  numSamples : Nat
  buffersMask : Finset Nat
  swapchain : Option SwapchainInfo
  frameCount : Nat
deriving DecidableEq

/-- Framebuffer::create() — a default-constructed framebuffer with the two
render-buffer vectors resized to MAX_NUM_RENDER_BUFFERS null/zero entries;
parametric in that header constant `m`. -/
def Framebuffer.create (m : Nat) : Framebuffer :=
  { renderBuffers := List.replicate m none
    renderBuffersSubresource := List.replicate m 0
    depthStencilBuffer := none
    depthStencilBufferSubresource := 0
    width := 0
    height := 0
    numSamples := 0
    buffersMask := ∅
    swapchain := none
    frameCount := 0 }

/-- Framebuffer::isSwapchain — the swapchain pointer is non-null. -/
def Framebuffer.isSwapchain (fb : Framebuffer) : Bool := fb.swapchain.isSome

/-- Framebuffer::isEmpty — `_buffersMask == 0`. -/
def Framebuffer.isEmpty (fb : Framebuffer) : Bool := decide (fb.buffersMask = ∅)

/-- Framebuffer::getWidth. -/
def Framebuffer.getWidth (fb : Framebuffer) : Nat :=
  match fb.swapchain with
  | some sc => sc.width
  | none => fb.width

/-- Framebuffer::getHeight. -/
def Framebuffer.getHeight (fb : Framebuffer) : Nat :=
  match fb.swapchain with
  | some sc => sc.height
  | none => fb.height

/-- Framebuffer::getNumSamples. -/
def Framebuffer.getNumSamples (fb : Framebuffer) : Nat :=
  match fb.swapchain with
  | some sc => sc.numSamples
  | none => fb.numSamples

/-- Framebuffer::validateTargetCompatibility — a 1D texture never fits; an
empty framebuffer accepts anything else; a non-empty one requires equal
width, height and sample count. -/
def Framebuffer.validateTargetCompatibility (fb : Framebuffer) (texture : Texture)
    (_subresource : Nat) : Bool :=
  if texture.ty = TexType.tex1D then false
  else if fb.isEmpty then true
  else if texture.width = fb.getWidth ∧ texture.height = fb.getHeight ∧
      texture.numSamples = fb.getNumSamples then true
  else false

/-- Framebuffer::updateSize — only an empty framebuffer takes its size
from the incoming texture (or zero when the texture is null). -/
def Framebuffer.updateSize (fb : Framebuffer) (texture : Option Texture) : Framebuffer :=
  if fb.isEmpty then
    match texture with
    | some t => { fb with width := t.width, height := t.height, numSamples := t.numSamples }
    | none => { fb with width := 0, height := 0, numSamples := 0 }
  else fb

/-- Framebuffer::setRenderBuffer — parametric in the header constant
MAX_NUM_RENDER_BUFFERS (`m`), which getMaxNumRenderBuffers returns.
Rejects swapchain framebuffers, out-of-range slots and incompatible
non-null textures with -1; otherwise clears the previously used slot,
updates the cached size, stores texture and subresource, rewrites bit
`slot` of the buffers mask, and returns the slot. -/
def Framebuffer.setRenderBuffer (m : Nat) (fb : Framebuffer) (slot : Nat)
    (texture : Option Texture) (subresource : Nat) : Int × Framebuffer :=
  if fb.isSwapchain then (-1, fb)
  else if m ≤ slot then (-1, fb)
  else if texture.any (fun t => !(fb.validateTargetCompatibility t subresource)) then
    (-1, fb)
  else
    let fb1 := if (fb.renderBuffers.getD slot none).isSome then
        { fb with
            renderBuffers := fb.renderBuffers.set slot none
            renderBuffersSubresource := fb.renderBuffersSubresource.set slot 0 }
      else fb
    let fb2 := fb1.updateSize texture
    let fb3 := { fb2 with
                   renderBuffers := fb2.renderBuffers.set slot texture
                   renderBuffersSubresource := fb2.renderBuffersSubresource.set slot subresource }
    let mask1 := fb3.buffersMask.erase slot
    let mask2 := if texture.isSome then insert slot mask1 else mask1
    ((slot : Int), { fb3 with buffersMask := mask2 })

/-- Framebuffer::getNumRenderBuffers — the loop `nb += (!i)` over the
render-buffer vector. -/
def Framebuffer.getNumRenderBuffers (fb : Framebuffer) : Nat :=
  fb.renderBuffers.foldl (fun nb i => nb + (if i.isSome then 0 else 1)) 0

theorem updateSize_renderBuffers (fb : Framebuffer) (texture : Option Texture) :
    (fb.updateSize texture).renderBuffers = fb.renderBuffers := by
  unfold Framebuffer.updateSize
  split
  · cases texture <;> rfl
  · rfl

theorem updateSize_renderBuffersSubresource (fb : Framebuffer) (texture : Option Texture) :
    (fb.updateSize texture).renderBuffersSubresource = fb.renderBuffersSubresource := by
  unfold Framebuffer.updateSize
  split
  · cases texture <;> rfl
  · rfl

theorem updateSize_buffersMask (fb : Framebuffer) (texture : Option Texture) :
    (fb.updateSize texture).buffersMask = fb.buffersMask := by
  unfold Framebuffer.updateSize
  split
  · cases texture <;> rfl
  · rfl

/-- The successful path of setRenderBuffer, in terms of the incoming
state. -/
theorem setRenderBuffer_success (m : Nat) (fb : Framebuffer) (slot : Nat)
    (texture : Option Texture) (sub : Nat)
    (hsw : fb.isSwapchain = false) (hslot : slot < m)
    (hval : ∀ t, texture = some t → fb.validateTargetCompatibility t sub = true) :
    (Framebuffer.setRenderBuffer m fb slot texture sub).1 = (slot : Int) ∧
    (Framebuffer.setRenderBuffer m fb slot texture sub).2.renderBuffers
      = fb.renderBuffers.set slot texture ∧
    (Framebuffer.setRenderBuffer m fb slot texture sub).2.renderBuffersSubresource
      = fb.renderBuffersSubresource.set slot sub ∧
    (Framebuffer.setRenderBuffer m fb slot texture sub).2.buffersMask
      = (if texture.isSome then insert slot (fb.buffersMask.erase slot)
         else fb.buffersMask.erase slot) := by
  have hval' : texture.any (fun t => !(fb.validateTargetCompatibility t sub)) = false := by
    revert hval
    cases texture with
    | none => intro _; rfl
    | some t => intro hval; simp [hval t rfl]
  rw [Framebuffer.setRenderBuffer.eq_def, if_neg (by simp [hsw]),
    if_neg (Nat.not_le.mpr hslot), if_neg (by simp [hval'])]
  by_cases hprev : (fb.renderBuffers.getD slot none).isSome <;>
    (simp only [List.getD_eq_getElem?_getD] at hprev
     refine ⟨?_, ?_, ?_, ?_⟩ <;>
       simp [hprev, updateSize_renderBuffers, updateSize_renderBuffersSubresource,
         updateSize_buffersMask, List.set_set])

theorem foldl_count_none {α : Type} (l : List (Option α)) :
    ∀ n : Nat, l.foldl (fun nb i => nb + (if i.isSome then 0 else 1)) n
      = n + l.countP (fun i => i.isNone) := by
  induction l with
  | nil => intro n; simp
  | cons a l ih =>
      intro n
      cases a <;> (simp [List.foldl_cons, ih, List.countP_cons]; try omega)

theorem countP_none_replicate {α : Type} (m : Nat) :
    (List.replicate m (none : Option α)).countP (fun i => i.isNone) = m := by
  induction m with
  | zero => rfl
  | succ m ih => simp [List.replicate, List.countP_cons, ih]

theorem countP_none_set_some {α : Type} (l : List (Option α)) :
    ∀ (n : Nat) (t : α), n < l.length → l.getD n none = none →
      (l.set n (some t)).countP (fun i => i.isNone) + 1
        = l.countP (fun i => i.isNone) := by
  induction l with
  | nil => intro n t h _; simp at h
  | cons a l ih =>
      intro n t h he
      cases n with
      | zero =>
          obtain rfl : a = none := by simpa using he
          simp [List.countP_cons]
      | succ n =>
          have h' : n < l.length := by simpa using h
          have he' : l.getD n none = none := by simpa using he
          have hc := ih n t h' he'
          simp only [List.set, List.countP_cons]
          omega

/-- Claim C9: getNumRenderBuffers counts the render-buffer slots whose
texture pointer is null — for a framebuffer created with no buffers
attached it returns MAX_NUM_RENDER_BUFFERS (`m`), and each successful
setRenderBuffer of a non-null texture into a previously empty slot lowers
the count by one. -/
theorem getNumRenderBuffers_counts_empty :
    (∀ fb : Framebuffer,
      fb.getNumRenderBuffers = fb.renderBuffers.countP (fun i => i.isNone)) ∧
    (∀ m : Nat, (Framebuffer.create m).getNumRenderBuffers = m) ∧
    (∀ (m : Nat) (fb : Framebuffer) (slot : Nat) (t : Texture) (sub : Nat),
      slot < fb.renderBuffers.length →
      fb.renderBuffers.getD slot none = none →
      (Framebuffer.setRenderBuffer m fb slot (some t) sub).1 = (slot : Int) →
      (Framebuffer.setRenderBuffer m fb slot (some t) sub).2.getNumRenderBuffers + 1
        = fb.getNumRenderBuffers) := by
  have hcount : ∀ fb : Framebuffer,
      fb.getNumRenderBuffers = fb.renderBuffers.countP (fun i => i.isNone) := by
    intro fb
    rw [Framebuffer.getNumRenderBuffers]
    simpa using foldl_count_none fb.renderBuffers 0
  refine ⟨hcount, ?_, ?_⟩
  · intro m
    rw [hcount]
    exact countP_none_replicate m
  · intro m fb slot t sub hlen he hok
    have hsw : fb.isSwapchain = false := by
      by_contra h
      rw [Framebuffer.setRenderBuffer, if_pos (by simpa using h)] at hok
      omega
    have hslot : slot < m := by
      by_contra h
      rw [Framebuffer.setRenderBuffer.eq_def, if_neg (by simp [hsw]),
        if_pos (Nat.le_of_not_lt h)] at hok
      omega
    have hval : ∀ t', (some t : Option Texture) = some t' →
        fb.validateTargetCompatibility t' sub = true := by
      intro t' ht'
      obtain rfl : t = t' := by injection ht'
      by_contra h
      rw [Framebuffer.setRenderBuffer.eq_def, if_neg (by simp [hsw]),
        if_neg (Nat.not_le.mpr hslot),
        if_pos (by simp [Bool.not_eq_true] at h; simp [h])] at hok
      omega
    obtain ⟨-, hrb, -, -⟩ := setRenderBuffer_success m fb slot (some t) sub hsw hslot hval
    rw [hcount, hcount, hrb]
    exact countP_none_set_some fb.renderBuffers slot t hlen he

/-- A concrete 4x4 single-sample 2D texture used by the witnesses. -/
def tex44 : Texture := { ty := TexType.tex2D, width := 4, height := 4, numSamples := 1 }

/-- Witness for C9: an 8-slot framebuffer fresh from create() has 8 empty
slots, and attaching a 4x4 2D texture to empty slot 0 lowers the count to
7. -/
theorem getNumRenderBuffers_counts_empty_witness :
    (Framebuffer.create 8).getNumRenderBuffers = 8 ∧
    (Framebuffer.setRenderBuffer 8 (Framebuffer.create 8) 0
        (some tex44) 0).2.getNumRenderBuffers + 1
      = (Framebuffer.create 8).getNumRenderBuffers := by
  refine ⟨getNumRenderBuffers_counts_empty.2.1 8, ?_⟩
  exact getNumRenderBuffers_counts_empty.2.2 8 (Framebuffer.create 8) 0 tex44 0
    (by simp [Framebuffer.create]) (by simp [Framebuffer.create]) (by decide)

/-- Claim C10: setRenderBuffer rejects a swapchain framebuffer, an
out-of-range slot, or a non-null texture failing target compatibility with
-1 and an unchanged framebuffer; otherwise it returns the slot, stores
texture and subresource there, and sets bit `slot` of the buffers mask
exactly when the texture is non-null. -/
theorem setRenderBuffer_spec (m : Nat) (fb : Framebuffer) (slot : Nat)
    (texture : Option Texture) (sub : Nat) :
    (fb.isSwapchain = true → Framebuffer.setRenderBuffer m fb slot texture sub = (-1, fb)) ∧
    (m ≤ slot → Framebuffer.setRenderBuffer m fb slot texture sub = (-1, fb)) ∧
    (∀ t, texture = some t → fb.validateTargetCompatibility t sub = false →
      Framebuffer.setRenderBuffer m fb slot texture sub = (-1, fb)) ∧
    (fb.isSwapchain = false → slot < m →
      (∀ t, texture = some t → fb.validateTargetCompatibility t sub = true) →
      slot < fb.renderBuffers.length → slot < fb.renderBuffersSubresource.length →
      (Framebuffer.setRenderBuffer m fb slot texture sub).1 = (slot : Int) ∧
      (Framebuffer.setRenderBuffer m fb slot texture sub).2.renderBuffers.getD slot none
        = texture ∧
      (Framebuffer.setRenderBuffer m fb slot texture sub).2.renderBuffersSubresource.getD
        slot 0 = sub ∧
      (slot ∈ (Framebuffer.setRenderBuffer m fb slot texture sub).2.buffersMask
        ↔ texture.isSome = true)) := by
  refine ⟨?_, ?_, ?_, ?_⟩
  · intro hsw
    rw [Framebuffer.setRenderBuffer, if_pos (by simp [hsw])]
  · intro hslot
    rw [Framebuffer.setRenderBuffer.eq_def]
    by_cases hsw : fb.isSwapchain = true
    · rw [if_pos (by simp [hsw])]
    · rw [if_neg (by simpa using hsw), if_pos hslot]
  · intro t ht hbad
    rw [Framebuffer.setRenderBuffer.eq_def]
    by_cases hsw : fb.isSwapchain = true
    · rw [if_pos (by simp [hsw])]
    · by_cases hslot : m ≤ slot
      · rw [if_neg (by simpa using hsw), if_pos hslot]
      · rw [if_neg (by simpa using hsw), if_neg hslot, if_pos (by simp [ht, hbad])]
  · intro hsw hslot hval hlen hlen2
    obtain ⟨h1, h2, h3, h4⟩ := setRenderBuffer_success m fb slot texture sub hsw hslot hval
    refine ⟨h1, ?_, ?_, ?_⟩
    · rw [h2]
      simp [List.getD_eq_getElem?_getD, List.getElem?_set_eq_of_lt _ hlen]
    · rw [h3]
      simp [List.getD_eq_getElem?_getD, List.getElem?_set_eq_of_lt _ hlen2]
    · rw [h4]
      cases htex : texture with
      | none => simp
      | some t => simp

/-- Witness for C10: the success path on a fresh 8-slot framebuffer with a
4x4 2D texture, and the out-of-range failure path on slot 9. -/
theorem setRenderBuffer_spec_witness :
    Framebuffer.setRenderBuffer 8 (Framebuffer.create 8) 9 (some tex44) 0
      = (-1, Framebuffer.create 8) ∧
    (Framebuffer.setRenderBuffer 8 (Framebuffer.create 8) 0 (some tex44) 3).1 = (0 : Int) ∧
    (Framebuffer.setRenderBuffer 8 (Framebuffer.create 8) 0
        (some tex44) 3).2.renderBuffers.getD 0 none = some tex44 ∧
    (Framebuffer.setRenderBuffer 8 (Framebuffer.create 8) 0
        (some tex44) 3).2.renderBuffersSubresource.getD 0 0 = 3 ∧
    (0 ∈ (Framebuffer.setRenderBuffer 8 (Framebuffer.create 8) 0
        (some tex44) 3).2.buffersMask
      ↔ (some tex44 : Option Texture).isSome = true) := by
  constructor
  · exact (setRenderBuffer_spec 8 (Framebuffer.create 8) 9 (some tex44) 0).2.1 (by decide)
  · exact (setRenderBuffer_spec 8 (Framebuffer.create 8) 0 (some tex44) 3).2.2.2
      rfl (by decide)
      (fun t ht => by
        obtain rfl : tex44 = t := by injection ht
        decide)
      (by simp [Framebuffer.create]) (by simp [Framebuffer.create])

end gpu

end Hifi
